import Mathlib

/-!
Verification of the NestWise agentic orchestration core
(`backend-langgraph/Agentic_AI/langgraph.py`) against its
natural-language specification.

Python dictionaries are modelled as ordered association lists
(`List (String × α)`): assignment `d[k] = v` overwrites the value at the
first occurrence of `k` in place (preserving its position) or appends a
fresh binding at the end, exactly as CPython's insertion-ordered dicts
behave.  External capabilities (language-model invocations, the JSON
decoder applied to model output, the vector store) are modelled as
oracle parameters; everything else is translated from the source.
-/

namespace NestWise

/-- Looks a key up in an insertion-ordered dictionary (Python `d.get(k)` /
`d[k]`): the value at the first matching binding. -/
def dictGet {α : Type} (m : List (String × α)) (k : String) : Option α :=
  match m with
  | [] => none
  | p :: rest => if p.1 = k then some p.2 else dictGet rest k

/-- Python `k in d`: key membership. -/
def dictHasKey {α : Type} (m : List (String × α)) (k : String) : Bool :=
  m.any (fun p => p.1 = k)

/-- Python `d[k] = v`: overwrite the first binding of `k` in place, or
append a new binding at the end if `k` is absent. -/
def dictInsert {α : Type} : List (String × α) → String → α → List (String × α)
  | [], k, v => [(k, v)]
  | p :: rest, k, v =>
    if p.1 = k then (k, v) :: rest else p :: dictInsert rest k v

/-- Python `d.update(d2)`: insert every binding of `d2` in order. -/
def dictUpdate {α : Type} (m d : List (String × α)) : List (String × α) :=
  d.foldl (fun acc p => dictInsert acc p.1 p.2) m

/-- Python `s.strip()`: drop leading and trailing whitespace. -/
def pyStrip (s : String) : String :=
  String.mk (((s.data.dropWhile Char.isWhitespace).reverse.dropWhile
    Char.isWhitespace).reverse)

/-- Python `s.lower()` (adequate for the ASCII category/reply strings
the source lowercases). -/
def pyLower (s : String) : String :=
  String.mk (s.data.map Char.toLower)

/-- Python `s.startswith(t)`. -/
def pyStartsWith (s t : String) : Bool :=
  List.isPrefixOf t.data s.data

/-- Python `t in s`: substring containment. -/
def pyContains (s t : String) : Bool :=
  (s.splitOn t).length != 1

/-- One entry of the completion-tracking map (`shadow_profile`):
`{"collected": bool, "importance": int}`. -/
structure CompletionEntry where
  collected : Bool
  importance : Nat
deriving DecidableEq, Repr

/-- The completion-tracking map `shadow_profile` (field → entry). -/
abbrev CompletionMap := List (String × CompletionEntry)

/-- The extracted-value map `real_profile` (field → extracted value). -/
abbrev ProfileValues := List (String × String)

/-- Source constant `MAXRATING = 5`, then `MAXRATING = max(2, MAXRATING)`. -/
def MAXRATING : Nat := max 2 5

/-- Source constant `COMPLETENESSRATIO = 1` (the readiness threshold). -/
def completenessThreshold : ℚ := 1

/-- `totImportance` accumulated by the loop in `route_decision_extractor`:
the sum of the importance of every tracked field. -/
def totImportance (m : CompletionMap) : Nat :=
  (m.map (fun p => p.2.importance)).sum

/-- `totFilledImportance` accumulated by the same loop: the sum of the
importance of the collected fields. -/
def totFilledImportance (m : CompletionMap) : Nat :=
  (m.map (fun p => if p.2.collected then p.2.importance else 0)).sum

/-- `needsCriticalInfo` accumulated by the same loop: true when some
tracked field has importance `MAXRATING` and is not collected. -/
def needsCriticalInfo (m : CompletionMap) : Bool :=
  m.any (fun p => p.2.importance = MAXRATING && !p.2.collected)

/-- `currentCompleteness = totFilledImportance/totImportance`.  Python
raises `ZeroDivisionError` when `totImportance == 0` (no guard exists in
the source), modelled as `none`. -/
def currentCompleteness? (m : CompletionMap) : Option ℚ :=
  if totImportance m = 0 then none
  else some ((totFilledImportance m : ℚ) / (totImportance m : ℚ))

/-- Python truthiness of the `selected_template` read by the router:
`state.get("matcher").get("selected_template", None)` is falsy when the
key is absent (`None`) or the stored string is empty. -/
def templateFalsy (t : Option String) : Bool :=
  match t with
  | none => true
  | some s => s.isEmpty

/-- `route_decision_extractor`: evaluates completeness and criticality
over the shadow profile and returns the next node name.  `none` models
the uncaught `ZeroDivisionError` on an empty (zero-total-importance)
map. -/
def route_decision_extractor (profile : CompletionMap)
    (current_template : Option String) : Option String :=
  match currentCompleteness? profile with
  | none => none
  | some currentCompleteness =>
    if !needsCriticalInfo profile &&
        decide (currentCompleteness ≥ completenessThreshold) then
      if templateFalsy current_template then some "matcher"
      else some "planner"
    else
      some "chatbot"

/-- The template registry `prompt_infos`, restricted to the `questions`
tables (field → importance); the `description` strings are prompt text
consumed only by the classification model and are elided. -/
def prompt_infos : List (String × List (String × Nat)) :=
  [("spend",
    [("retirement_age", 5), ("desired_monthly_spending", 5),
     ("large_planned_expenses", 4), ("travel_frequency", 3),
     ("lifestyle_upgrades", 2)]),
   ("leave",
    [("number_of_beneficiaries", 5), ("beneficiary_relationships", 4),
     ("inheritance_goal_amount", 5), ("estate_distribution_preferences", 3),
     ("life_insurance_status", 2)]),
   ("save",
    [("retirement_age", 4), ("expected_monthly_expenses", 5),
     ("risk_tolerance", 4), ("healthcare_budget", 5),
     ("expected_retirement_duration", 3)]),
   ("donate",
    [("charity_names", 4), ("donation_goal_amount", 5),
     ("donation_frequency", 3), ("donation_timing", 4),
     ("legacy_donation_percentage", 2)]),
   ("default",
    [("retirement_age", 4), ("expected_monthly_expenses", 5),
     ("risk_tolerance", 4), ("healthcare_budget", 5),
     ("inheritance_goal_amount", 3)])]

/-- `prompt_infos[category]["questions"]` for a known category. -/
def templateQuestions (category : String) : List (String × Nat) :=
  (dictGet prompt_infos category).getD []

/-- The loop at the end of `call_matcher`: for every field of the chosen
template, `shadow_profile[field] = {"collected": False, "importance":
importance}`.  The pre-existing bindings of `shadow_profile` are NOT
cleared first. -/
def applyTemplateFields (shadow : CompletionMap) (qs : List (String × Nat)) :
    CompletionMap :=
  qs.foldl (fun acc q => dictInsert acc q.1 ⟨false, q.2⟩) shadow

/-- `call_matcher`: reads the user goal, classifies it (the model's
reply text is the oracle argument `matcherResp`), coerces unknown
categories to `"default"`, stores `selected_template`, and writes every
template field into the existing `shadow_profile`.  Returns the selected
category and the updated shadow profile. -/
def call_matcher (matcherResp : String) (real_profile : ProfileValues)
    (shadow_profile : CompletionMap) : String × CompletionMap :=
  let _user_goal := (dictGet real_profile "goal").getD ""
  let category0 := pyLower (pyStrip matcherResp)
  let category :=
    if dictHasKey prompt_infos category0 then category0 else "default"
  (category, applyTemplateFields shadow_profile (templateQuestions category))

/-- The default `shadow_profile` installed by `start_session`. -/
def initial_shadow_profile : CompletionMap :=
  [("goal", ⟨false, 5⟩), ("age", ⟨false, 2⟩), ("salary", ⟨false, 3⟩),
   ("savings", ⟨false, 4⟩), ("location", ⟨false, 5⟩)]

/-- Role tags of the LangChain message classes
(System/Human/AI/Tool-Message). -/
inductive Role where
  | system | human | ai | tool
deriving DecidableEq, Repr

/-- A role-tagged message. -/
structure Msg where
  role : Role
  content : String
deriving DecidableEq, Repr

/-- Python `l[-1]` as an `Option` (and `l[-1:]` via `.toList`). -/
def pyLast {α : Type} : List α → Option α
  | [] => none
  | [a] => some a
  | _ :: b :: rest => pyLast (b :: rest)

/-- Errors a turn can raise: a model invocation failing
(network/auth), `json.loads` failing on the extractor reply, and the
unguarded division in `route_decision_extractor`. -/
inductive TurnError where
  | modelError
  | jsonDecodeError
  | zeroDivisionError
deriving DecidableEq, Repr

/-- The external language/retrieval capabilities consumed during one
turn, as oracles.  `extractorCall` bundles the extractor model call with
`json.loads` on its reply: `.error` models the model call raising,
`.ok none` a reply that `json.loads` rejects, `.ok (some d)` a reply
parsing to the JSON object `d`. -/
structure Oracles where
  extractorCall : Except Unit (Option (List (String × String)))
  titleCall : Except Unit String
  matcherCall : Except Unit String
  chatbotCall : Except Unit String
  summarizerCall : Except Unit String
  plannerQueryCall : Except Unit (String × List String)
  retrieveCall : String → String
  plannerSynthCall : Except Unit String
  formatterCall : Except Unit String

/-- Static chatbot persona instruction (`system_prompt_chatbot`); the
content is elided to its lead sentence — the control flow only tests
that the first message is a `SystemMessage` containing "NestWise". -/
def system_prompt_chatbot : Msg :=
  ⟨.system, "You are NestWise, a financial planning assistant."⟩

/-- The greeting `assistant_message` (the source contraction "I am" is
written without its apostrophe character). -/
def assistant_message : Msg :=
  ⟨.ai, "Hello there, I am NestWise! How can I help you plan for your retirement?"⟩

/-- Static extractor framing instruction (`system_prompt_extract`). -/
def system_prompt_extract : Msg :=
  ⟨.system, "You will be analyzing the conversation history between a user and a chatbot about retirement planning."⟩

/-- Rendering of one shadow-profile entry inside the dynamic extraction
instruction. -/
def renderEntry (p : String × CompletionEntry) : String :=
  p.1 ++ ": collected=" ++ (if p.2.collected then "True" else "False")
    ++ ", importance=" ++ toString p.2.importance

/-- The dynamic `shadow_system_prompt` built in `call_extractor`; the
instruction text around the embedded shadow profile (whose JSON example
contains brace characters) is elided to its lead sentence. -/
def shadow_system_prompt (shadow_profile : CompletionMap) : String :=
  "Below is a dictionary representing the user information. " ++
    String.intercalate "; " (shadow_profile.map renderEntry)

/-- The user-message content of the one-shot title request (source line
432); the quoting punctuation around the goal is elided. -/
def title_prompt_content (goal : String) : String :=
  "Create a concise, 3-8 word title summarizing this retirement goal: "
    ++ goal

/-- Result of `call_extractor`.  The Python function mutates the
`shadow_profile`/`real_profile` dict objects in place before any raise,
so the result carries both the final contents of those dicts and the
raised error (if any): on `err = some e` the exception propagates out of
the node after the recorded mutations. -/
structure ExtractorResult where
  err : Option TurnError
  shadow_profile : CompletionMap
  real_profile : ProfileValues
  all_fields_filled : Option Bool
  conversation_title : Option String
  titlePrompt : Option String
deriving DecidableEq, Repr

/-- `call_extractor`: prepends the two system instructions, invokes the
extractor model and `json.loads` (oracle `extractorCall`; an exception
in either propagates — there is no try/except around `json.loads`),
treats an empty object as "no new information" (bare `return`, i.e. no
state update), marks every returned field present in `shadow_profile`
as collected, merges the returned values into `real_profile`, and — when
the object contains a `"goal"` key — overwrites the stored goal with the
verbatim content of the last message and requests a conversation title
(oracle `titleCall`), unconditionally: no guard consults the previously
stored title. -/
def call_extractor (o : Oracles) (messages : List Msg)
    (shadow_profile : CompletionMap) (real_profile : ProfileValues) :
    ExtractorResult :=
  let messages := system_prompt_extract ::
    Msg.mk .system (shadow_system_prompt shadow_profile) :: messages
  match o.extractorCall with
  | .error _ =>
    ⟨some .modelError, shadow_profile, real_profile, none, none, none⟩
  | .ok none =>
    ⟨some .jsonDecodeError, shadow_profile, real_profile, none, none, none⟩
  | .ok (some response_dict) =>
    if response_dict.isEmpty then
      ⟨none, shadow_profile, real_profile, none, none, none⟩
    else
      let shadow_profile := shadow_profile.map (fun p =>
        if dictHasKey response_dict p.1 then (p.1, ⟨true, p.2.importance⟩)
        else p)
      let real_profile := dictUpdate real_profile response_dict
      if dictHasKey response_dict "goal" then
        let goalText := ((pyLast messages).map Msg.content).getD ""
        let real_profile := dictInsert real_profile "goal" goalText
        match o.titleCall with
        | .error _ =>
          ⟨some .modelError, shadow_profile, real_profile, none, none,
            some (title_prompt_content goalText)⟩
        | .ok t =>
          ⟨none, shadow_profile, real_profile,
            some (shadow_profile.all (fun p => p.2.collected)),
            some (pyStrip t), some (title_prompt_content goalText)⟩
      else
        ⟨none, shadow_profile, real_profile,
          some (shadow_profile.all (fun p => p.2.collected)), none, none⟩

/-- Sub-state dict stored under `master_state["chatbot"]`. -/
structure ChatbotSub where
  messages : List Msg
deriving DecidableEq, Repr

/-- Sub-state dict stored under `master_state["extractor"]`.
`real_profile`/`shadow_profile` default to the empty dict exactly as
`state.get(..., {})` does while the keys are absent. -/
structure ExtractorSub where
  all_fields_filled : Bool
  conversation_title : String
  real_profile : ProfileValues := []
  shadow_profile : CompletionMap := []
deriving DecidableEq, Repr

/-- Sub-state dict stored under `master_state["matcher"]`. -/
structure MatcherSub where
  need_no_more_fields : Bool
  selected_template : Option String := none
  real_profile : ProfileValues := []
  shadow_profile : CompletionMap := []
deriving DecidableEq, Repr

/-- Sub-state dict stored under `master_state["summarizer"]`; `summary`
is `none` while the key is absent (read as "None" via `.get`). -/
structure SummarizerSub where
  summary : Option String := none
deriving DecidableEq, Repr

/-- Sub-state dict stored under `master_state["planner"]`; the
`real_profile`/`shadow_profile` keys are never written by any caller,
modelled as `Option` (absent = `none`). -/
structure PlannerSub where
  messages : List Msg := []
  real_profile : Option ProfileValues := none
  shadow_profile : Option CompletionMap := none
deriving DecidableEq, Repr

/-- The `MasterState` dict: one per process (see `start_session`). The
`planner` key is absent (`none`) until the planner first runs. -/
structure MasterState where
  messages : List Msg
  chatbot : ChatbotSub
  extractor : ExtractorSub
  matcher : MatcherSub
  summarizer : SummarizerSub := {}
  planner : Option PlannerSub := none
  real_profile : ProfileValues
  shadow_profile : CompletionMap
  conversation_title : String
deriving DecidableEq, Repr

/-- The fresh `MasterState` built by `start_session`. -/
def initial_master_state : MasterState where
  messages := []
  chatbot := ⟨[system_prompt_chatbot, assistant_message]⟩
  extractor := { all_fields_filled := false, conversation_title := "None" }
  matcher := { need_no_more_fields := false }
  real_profile := []
  shadow_profile := initial_shadow_profile
  conversation_title := "initial"

/-- `[m for m in all_messages if m.type == "human"][-1:]`. -/
def lastHumanMessage (msgs : List Msg) : Option Msg :=
  pyLast (msgs.filter (fun m => m.role = .human))

/-- The message list `run_extractor` hands to the extractor subgraph: an
echo of the chatbot's last ai/system message, then the user's latest
message (when one exists). -/
def extractor_input_messages (master : MasterState) : List Msg :=
  let chatbot_messages := master.chatbot.messages.filter
    (fun m => m.role = .ai || m.role = .system)
  let last_chatbot := (pyLast chatbot_messages).getD
    ⟨.ai, "No Chatbot Messages Found"⟩
  Msg.mk .human last_chatbot.content ::
    (lastHumanMessage master.messages).toList

/-- `run_extractor`: runs `call_extractor` on the echo + latest user
message and folds the result back into the master state (an exception
from the node propagates). -/
def run_extractor (o : Oracles) (master : MasterState) :
    Except TurnError MasterState :=
  let r := call_extractor o (extractor_input_messages master)
    master.shadow_profile master.extractor.real_profile
  match r.err with
  | some e => .error e
  | none =>
    let sub : ExtractorSub :=
      { all_fields_filled :=
          r.all_fields_filled.getD master.extractor.all_fields_filled,
        conversation_title :=
          r.conversation_title.getD master.extractor.conversation_title,
        real_profile := r.real_profile,
        shadow_profile := r.shadow_profile }
    .ok { master with
      extractor := sub,
      real_profile := r.real_profile,
      shadow_profile := r.shadow_profile,
      conversation_title := sub.conversation_title }

/-- The goal text `call_matcher` reads from the profile:
`real_profile.get("goal", "")`. -/
def matcher_user_goal (real_profile : ProfileValues) : String :=
  (dictGet real_profile "goal").getD ""

/-- The marker phrase of the dynamic profile-snapshot message filtered
out on the next turn; the source phrase carries a possessive apostrophe,
so containment is keyed on this contiguous fragment of it. -/
def profile_status_marker : String := "current profile status."

/-- `normalize_collected`: the source also accepts the strings
"true"/"yes"/"1"; in the typed model `collected` is always a proper
boolean, for which the source returns the boolean itself. -/
def normalize_collected (value : Bool) : Bool := value

/-- The `missing_fields` list built by `call_chatbot`: every tracked
field whose entry is not collected, with its importance. -/
def missing_fields (shadow_profile : CompletionMap) :
    List (String × Nat) :=
  shadow_profile.filterMap (fun p =>
    if normalize_collected p.2.collected then none
    else some (p.1, p.2.importance))

/-- Stable insertion modelling one step of CPython
`list.sort(key=..., reverse=True)`: the element goes after every
already-placed element of greater or equal importance, preserving the
original order of ties. -/
def insertStableDesc (x : String × Nat) :
    List (String × Nat) → List (String × Nat)
  | [] => [x]
  | y :: ys => if x.2 ≤ y.2 then y :: insertStableDesc x ys
               else x :: y :: ys

/-- Stable descending sort by importance (CPython timsort is stable). -/
def sortStableDesc (l : List (String × Nat)) : List (String × Nat) :=
  l.foldl (fun acc x => insertStableDesc x acc) []

/-- The dynamic profile-snapshot HumanMessage of `call_chatbot`
(instruction text around the embedded data elided; it contains the
marker phrase the next turn filters on). -/
def profile_prompt (shadow_profile : CompletionMap)
    (missing : List (String × Nat)) : String :=
  "Below is the user current profile status. " ++
    String.intercalate "; " (shadow_profile.map renderEntry) ++
    " Missing fields sorted by importance: " ++
    String.intercalate "; " (missing.map (fun f => f.1))

/-- `call_chatbot`: ensures the persona instruction appears once at the
front, drops stale profile-snapshot messages, appends a fresh snapshot
listing the missing fields sorted by importance, invokes the chatbot
model, and defensively overrides a premature "all collected" reply with
a fallback question about the top missing field.  Returns the updated
chatbot message list (the node leaves `shadow_profile` unchanged). -/
def call_chatbot (resp : Except Unit String) (messages0 : List Msg)
    (shadow_profile : CompletionMap) : Except TurnError (List Msg) :=
  let messages :=
    match messages0 with
    | m :: _ =>
      if m.role == Role.system && pyContains m.content "NestWise" then messages0
      else system_prompt_chatbot :: messages0
    | [] => system_prompt_chatbot :: messages0
  let cleaned := messages.filter (fun m =>
    !(m.role == Role.human && pyContains m.content profile_status_marker))
  let missing := sortStableDesc (missing_fields shadow_profile)
  let messages := cleaned ++ [⟨.human, profile_prompt shadow_profile missing⟩]
  match resp with
  | .error _ => .error .modelError
  | .ok reply =>
    let reply_text_stripped := pyLower (pyStrip reply)
    if !missing.isEmpty &&
        pyStartsWith reply_text_stripped "all necessary info collected" then
      let top_field :=
        (((missing.head?).map Prod.fst).getD "").replace "_" " "
      .ok (messages ++
        [⟨.ai, "Could you please provide your " ++ top_field ++ "?"⟩])
    else
      .ok (messages ++ [⟨.ai, reply⟩])

/-- `run_chatbot`: appends the user's latest message to the persistent
chatbot history and runs `call_chatbot`; the shadow profile passes
through unchanged. -/
def run_chatbot (o : Oracles) (master : MasterState) :
    Except TurnError MasterState :=
  let msgs := master.chatbot.messages ++
    (lastHumanMessage master.messages).toList
  match call_chatbot o.chatbotCall msgs master.shadow_profile with
  | .error e => .error e
  | .ok newMsgs => .ok { master with chatbot := ⟨newMsgs⟩ }

/-- `run_matcher`: resets the matcher sub-conversation, runs
`call_matcher` (the classifier model reply is the oracle `matcherCall`),
and folds the selected template and updated shadow profile back into the
master state. -/
def run_matcher (o : Oracles) (master : MasterState) :
    Except TurnError MasterState :=
  match o.matcherCall with
  | .error _ => .error .modelError
  | .ok resp =>
    let r := call_matcher resp master.real_profile master.shadow_profile
    .ok { master with
      matcher := { master.matcher with
        selected_template := some r.1,
        real_profile := master.real_profile,
        shadow_profile := r.2 },
      shadow_profile := r.2 }

/-- `run_summarizer`: summarizes the chatbot history (oracle
`summarizerCall`), stores the new running summary, and resets the
chatbot history to the persona instruction, a summary message, and the
single most recent message. -/
def run_summarizer (o : Oracles) (master : MasterState) :
    Except TurnError MasterState :=
  let chatbot_messages := master.chatbot.messages
  match o.summarizerCall with
  | .error _ => .error .modelError
  | .ok s =>
    .ok { master with
      summarizer := ⟨some s⟩,
      chatbot := ⟨system_prompt_chatbot ::
        Msg.mk .human ("Summary:" ++ s) ::
        (pyLast chatbot_messages).toList⟩ }

/-- The module-level `real_profile = ` empty-dict binding (source line
173).  No statement assigns to this module global — `call_extractor`
and the other nodes bind same-named locals from their state — so it
stays empty for the process lifetime.  `query_or_respond` formats its
retrieval prompt from THIS binding. -/
def module_real_profile : ProfileValues := []

/-- Rendering of a profile dict inside a prompt f-string. -/
def renderProfile (real_profile : ProfileValues) : String :=
  String.intercalate "; "
    (real_profile.map (fun p => p.1 ++ "=" ++ p.2))

/-- The retrieval-assistant instruction built by `query_or_respond`
(lead text elided): the embedded profile is the module-level global
`real_profile`, not the session's `state` profile. -/
def rag_query_text : String :=
  "You are a Retrieval Assistant. User Profile: " ++
    renderProfile module_real_profile

/-- The profile the synthesis instruction of `call_planner` embeds:
`state.get("real_profile", ...)` of the planner sub-state (empty-dict
default when the key is absent). -/
def call_planner_prompt_profile (planner_state_real : Option ProfileValues) :
    ProfileValues :=
  planner_state_real.getD []

/-- One invocation of the compiled planner sub-graph:
`query_or_respond` (tool-binding model call, oracle `plannerQueryCall`
yielding the reply text and the requested retrieval queries), then —
only when tool calls were requested — the `tools` node (one
`retrieve` per query, k=3 nearest-neighbor search modelled by oracle
`retrieveCall`) followed by `call_planner` synthesis.  The prepended
system instructions are model-facing only: each node persists just its
reply message. -/
def planner_subgraph_invoke (o : Oracles) (ps : PlannerSub) :
    Except TurnError PlannerSub :=
  match o.plannerQueryCall with
  | .error _ => .error .modelError
  | .ok (content, queries) =>
    let messages := ps.messages ++ [⟨.ai, content⟩]
    if queries.isEmpty then
      .ok { ps with messages := messages }
    else
      let messages := messages ++
        queries.map (fun q => Msg.mk .tool (o.retrieveCall q))
      match o.plannerSynthCall with
      | .error _ => .error .modelError
      | .ok plan => .ok { ps with messages := messages ++ [⟨.ai, plan⟩] }

/-- `run_planner`: builds the planner state from
`master_state.get("planner", ...)` ONLY — the session's
`real_profile`/`shadow_profile` are not passed in — runs the planner
sub-graph, and stores the result back. -/
def run_planner (o : Oracles) (master : MasterState) :
    Except TurnError MasterState :=
  let planner_data := master.planner.getD {}
  match planner_subgraph_invoke o planner_data with
  | .error e => .error e
  | .ok ps => .ok { master with planner := some ps }

/-- The profile the synthesis prompt embeds for a given master state. -/
def run_planner_synthesis_profile (master : MasterState) : ProfileValues :=
  call_planner_prompt_profile (master.planner.getD {}).real_profile

/-- `route_decision_summarize`: route to the summarizer exactly when the
accumulated chatbot message count reaches the threshold 20. -/
def route_decision_summarize (master : MasterState) : Bool :=
  master.chatbot.messages.length ≥ 20

/-- One pass of the compiled master `workflow`: extractor, then the
completeness-driven branch (matcher → chatbot, planner, or chatbot),
then the message-count check that may trigger the summarizer.  Any node
exception propagates. -/
def graph_invoke (o : Oracles) (st : MasterState) :
    Except TurnError MasterState := do
  let st ← run_extractor o st
  match route_decision_extractor st.shadow_profile
      st.matcher.selected_template with
  | none => .error .zeroDivisionError
  | some route =>
    if route = "matcher" then do
      let st ← run_matcher o st
      let st ← run_chatbot o st
      if route_decision_summarize st then run_summarizer o st else pure st
    else if route = "planner" then
      run_planner o st
    else do
      let st ← run_chatbot o st
      if route_decision_summarize st then run_summarizer o st else pure st

/-- What one `chat_step` call leaves behind: the raised error (if any),
the process-global `state` after the call, the global
`prev_assistant_message`, and the returned payload (absent when the call
raised). -/
structure ChatStepResult where
  err : Option TurnError
  state : MasterState
  prev_assistant_message : Option Msg
  response : Option String
  real_profile : Option (List (String × Option String))
  conversation_title : Option String
deriving Repr

/-- `chat_step`: appends the user's message to the process-global
`state` BEFORE invoking the graph (so the append survives a failing
turn), then runs one graph pass; on success it either returns the new
assistant text (remembering it in `prev_assistant_message`) or — when
the assistant text equals the previous one — re-renders the planner's
raw output through the formatter model (oracle `formatterCall`).
`profile_data` maps every tracked field to its extracted value, absent
values marked by the `False` sentinel (`none` here).  The
`session_id` argument is ignored: there is only one global state.
(For an empty `user_message` the source appends `None` and later
raises; that path is outside the modelled claims.) -/
def chat_step (o : Oracles) (user_message : String) (_session_id : String)
    (g : MasterState) (prev_assistant_message : Option Msg) :
    ChatStepResult :=
  let g1 := { g with messages := g.messages ++ [⟨.human, user_message⟩] }
  match graph_invoke o g1 with
  | .error e =>
    { err := some e, state := g1, prev_assistant_message,
      response := none, real_profile := none, conversation_title := none }
  | .ok g2 =>
    let assistant := (pyLast g2.chatbot.messages).getD ⟨.ai, ""⟩
    let profile_data := g2.shadow_profile.map
      (fun p => (p.1, dictGet g2.real_profile p.1))
    if some assistant = prev_assistant_message then
      let planner_message :=
        (pyLast (g2.planner.getD {}).messages).getD ⟨.ai, ""⟩
      match o.formatterCall with
      | .error _ =>
        { err := some .modelError, state := g2, prev_assistant_message,
          response := none, real_profile := none,
          conversation_title := none }
      | .ok formatted =>
        let _ := planner_message
        { err := none, state := g2, prev_assistant_message,
          response := some formatted, real_profile := some profile_data,
          conversation_title := some g2.conversation_title }
    else
      { err := none, state := g2,
        prev_assistant_message := some assistant,
        response := some assistant.content,
        real_profile := some profile_data,
        conversation_title := some g2.conversation_title }

/-- `start_session`: despite its docstring ("store its MasterState in
the global sessions dict"), the source assigns a fresh `MasterState` to
the single process-global `state` variable, discarding whatever state
the previous session had, and returns the session id unchanged.  The
global-variable semantics is modelled by explicit passing: the result is
the new global. -/
def start_session (session_id : String)
    (_prev_global_state : Option MasterState) : String × MasterState :=
  (session_id, initial_master_state)

/-- A benign oracle assignment used to instantiate concrete scenarios;
individual runs override the calls they exercise. -/
def baseOracle : Oracles where
  extractorCall := .ok (some [])
  titleCall := .ok "Retirement Plan"
  matcherCall := .ok "spend"
  chatbotCall := .ok "What is your age?"
  summarizerCall := .ok "Summary text"
  plannerQueryCall := .ok ("", [])
  retrieveCall := fun _ => ""
  plannerSynthCall := .ok "Plan"
  formatterCall := .ok "Formatted plan"

/-- A session state in which a conversation title has already been
generated on an earlier goal-bearing turn. -/
def titledState : MasterState :=
  { initial_master_state with
    conversation_title := "Early Retirement Planning",
    extractor :=
      { all_fields_filled := false,
        conversation_title := "Early Retirement Planning",
        real_profile := [("goal", "I want to retire early")],
        shadow_profile := initial_shadow_profile },
    real_profile := [("goal", "I want to retire early")],
    messages := [⟨.human, "I want to retire early"⟩,
                 ⟨.human, "Actually I want to travel the world"⟩] }

/-- A session state whose extraction phase has already collected profile
values — the profile the planner is supposed to receive. -/
def collectedState : MasterState :=
  { initial_master_state with
    real_profile := [("goal", "retire early and travel"), ("age", "45")],
    extractor :=
      { all_fields_filled := true,
        conversation_title := "Early Retirement",
        real_profile := [("goal", "retire early and travel"),
                         ("age", "45")],
        shadow_profile := initial_shadow_profile },
    matcher := { need_no_more_fields := false,
                 selected_template := some "spend" } }

/-- Nodes of the compiled master `workflow` graph. -/
inductive MNode where
  | START | extractor | matcher | chatbot | planner | summarizer | END
deriving DecidableEq, Repr

/-- Edge list of the master workflow exactly as wired by `add_edge` /
`add_conditional_edges` (conditional branches contribute one edge per
possible target); the summarizer node has no outgoing edge. -/
def masterEdges : List (MNode × MNode) :=
  [(.START, .extractor),
   (.extractor, .matcher), (.extractor, .planner), (.extractor, .chatbot),
   (.matcher, .chatbot),
   (.chatbot, .summarizer), (.chatbot, .END),
   (.planner, .END)]

/-- A rank that strictly decreases along every master edge. -/
def mRank : MNode → Nat
  | .START => 5
  | .extractor => 4
  | .matcher => 3
  | .chatbot => 2
  | .summarizer => 1
  | .planner => 1
  | .END => 0

/-- Nodes of the compiled planner sub-graph. -/
inductive PNode where
  | query_or_respond | tools | call_planner | END
deriving DecidableEq, Repr

/-- Edge list of the planner sub-graph: `query_or_respond` either ends
or goes to `tools` (tools_condition), `tools` feeds `call_planner`,
which ends; there is no edge back to `query_or_respond`. -/
def plannerEdges : List (PNode × PNode) :=
  [(.query_or_respond, .END), (.query_or_respond, .tools),
   (.tools, .call_planner),
   (.call_planner, .END)]

/-- A rank that strictly decreases along every planner edge. -/
def pRank : PNode → Nat
  | .query_or_respond => 3
  | .tools => 2
  | .call_planner => 1
  | .END => 0

/-- A walk through an edge list: consecutive nodes are joined by
edges. -/
def isWalk {ν : Type} [DecidableEq ν] (edges : List (ν × ν)) :
    List ν → Bool
  | [] => true
  | [_] => true
  | a :: b :: rest => decide ((a, b) ∈ edges) && isWalk edges (b :: rest)

theorem totFilledImportance_le (m : CompletionMap) :
    totFilledImportance m ≤ totImportance m := by
  unfold totFilledImportance totImportance
  apply List.sum_le_sum
  intro p _
  split <;> simp

theorem totImportance_pos (m : CompletionMap) (hne : m ≠ [])
    (himp : ∀ p ∈ m, 1 ≤ p.2.importance) : 0 < totImportance m := by
  match m, hne with
  | p :: rest, _ =>
    have h1 : 1 ≤ p.2.importance := himp p (by simp)
    unfold totImportance
    simp only [List.map_cons, List.sum_cons]
    omega

theorem needsCriticalInfo_iff (m : CompletionMap) :
    needsCriticalInfo m = true ↔
      ∃ p ∈ m, p.2.importance = 5 ∧ p.2.collected = false := by
  unfold needsCriticalInfo MAXRATING
  simp [List.any_eq_true, Bool.and_eq_true, Bool.not_eq_true']

theorem route_characterization (m : CompletionMap) (t : Option String)
    (hpos : totImportance m ≠ 0) :
    route_decision_extractor m t =
      some (if needsCriticalInfo m = false ∧
              1 ≤ (totFilledImportance m : ℚ) / (totImportance m : ℚ) then
              (if templateFalsy t then "matcher" else "planner")
            else "chatbot") := by
  unfold route_decision_extractor currentCompleteness? completenessThreshold
  rw [if_neg hpos]
  by_cases h1 : needsCriticalInfo m = false
  · by_cases h2 : 1 ≤ (totFilledImportance m : ℚ) / (totImportance m : ℚ)
    · simp only [h1, h2, ge_iff_le, Bool.not_false, Bool.true_and,
        decide_eq_true_eq, if_pos, and_self, if_true]
      split <;> rfl
    · simp [h1, h2, ge_iff_le]
  · simp only [Bool.not_eq_false] at h1
    simp [h1]

/-- C1: on every non-empty completion map (with the spec's importance
range), the router computes the importance-weighted completeness ratio
(a value in [0,1]); `needsCritical` holds exactly when some tracked
field of importance `MAXRATING = 5` is uncollected; the turn goes to the
planner (or the matcher when no template is selected) iff the ratio
reaches the threshold 1 and no critical field is missing, otherwise to
the interview chatbot; in particular any uncollected importance-5 field
forces the chatbot route. -/
theorem routing_readiness_correct (m : CompletionMap) (t : Option String)
    (hne : m ≠ []) (himp : ∀ p ∈ m, 1 ≤ p.2.importance) :
    ∃ c : ℚ, currentCompleteness? m = some c ∧
      c = (totFilledImportance m : ℚ) / (totImportance m : ℚ) ∧
      0 ≤ c ∧ c ≤ 1 ∧
      (needsCriticalInfo m = true ↔
        ∃ p ∈ m, p.2.importance = 5 ∧ p.2.collected = false) ∧
      (route_decision_extractor m t =
          some (if templateFalsy t then "matcher" else "planner") ↔
        (1 ≤ c ∧ needsCriticalInfo m = false)) ∧
      ((∃ p ∈ m, p.2.importance = 5 ∧ p.2.collected = false) →
        route_decision_extractor m t = some "chatbot") := by
  have hpos : 0 < totImportance m := totImportance_pos m hne himp
  have hne0 : totImportance m ≠ 0 := by omega
  have hcast : (0 : ℚ) < (totImportance m : ℚ) := by exact_mod_cast hpos
  have hchar := route_characterization m t hne0
  refine ⟨(totFilledImportance m : ℚ) / (totImportance m : ℚ), ?_, rfl,
    ?_, ?_, needsCriticalInfo_iff m, ?_, ?_⟩
  · unfold currentCompleteness?
    rw [if_neg hne0]
  · positivity
  · rw [div_le_one hcast]
    exact_mod_cast totFilledImportance_le m
  · rw [hchar]
    constructor
    · intro h
      by_cases hcond : needsCriticalInfo m = false ∧
          1 ≤ (totFilledImportance m : ℚ) / (totImportance m : ℚ)
      · exact ⟨hcond.2, hcond.1⟩
      · rw [if_neg hcond] at h
        exfalso
        have := Option.some.inj h
        by_cases ht : templateFalsy t <;> simp [ht] at this
    · intro ⟨h1, h2⟩
      rw [if_pos ⟨h2, h1⟩]
  · intro hex
    have hcrit : needsCriticalInfo m = true := (needsCriticalInfo_iff m).mpr hex
    rw [hchar, if_neg]
    intro ⟨h1, _⟩
    rw [hcrit] at h1
    exact absurd h1 (by simp)

/-- Witness for C1 at a concrete one-field map. -/
theorem routing_readiness_correct_witness :
    ∃ c : ℚ,
      currentCompleteness? [("goal", ⟨false, 5⟩)] = some c ∧
      c = (totFilledImportance [("goal", ⟨false, 5⟩)] : ℚ) /
            (totImportance [("goal", ⟨false, 5⟩)] : ℚ) ∧
      0 ≤ c ∧ c ≤ 1 ∧
      (needsCriticalInfo [("goal", ⟨false, 5⟩)] = true ↔
        ∃ p ∈ [("goal", (⟨false, 5⟩ : CompletionEntry))],
          p.2.importance = 5 ∧ p.2.collected = false) ∧
      (route_decision_extractor [("goal", ⟨false, 5⟩)] none =
          some (if templateFalsy none then "matcher" else "planner") ↔
        (1 ≤ c ∧ needsCriticalInfo [("goal", ⟨false, 5⟩)] = false)) ∧
      ((∃ p ∈ [("goal", (⟨false, 5⟩ : CompletionEntry))],
          p.2.importance = 5 ∧ p.2.collected = false) →
        route_decision_extractor [("goal", ⟨false, 5⟩)] none =
          some "chatbot") :=
  routing_readiness_correct [("goal", ⟨false, 5⟩)] none (by decide)
    (by intro p hp; simp at hp; subst hp; decide)

/-- C8 counterexample: on the empty completion map the completeness
computation is NOT total — `totImportance` is 0 and the division raises
`ZeroDivisionError` (modelled as `none`), so no ratio 0 is produced and
the routing evaluation fails. -/
theorem empty_map_division_unguarded :
    currentCompleteness? ([] : CompletionMap) = none ∧
    route_decision_extractor ([] : CompletionMap) none = none := by
  constructor <;> rfl

/-- C8 amended: on the empty completion map `needsCritical` is indeed
false, but the readiness evaluation is not well-defined: the division by
the total importance is unguarded and raises (modelled as `none`) instead
of yielding ratio 0. -/
theorem empty_map_raises :
    needsCriticalInfo ([] : CompletionMap) = false ∧
    currentCompleteness? ([] : CompletionMap) = none ∧
    route_decision_extractor ([] : CompletionMap) none = none ∧
    route_decision_extractor ([] : CompletionMap) (some "spend") = none := by
  refine ⟨rfl, rfl, rfl, rfl⟩


theorem dictGet_dictInsert_self {α : Type} (m : List (String × α)) (k : String)
    (v : α) : dictGet (dictInsert m k v) k = some v := by
  induction m with
  | nil => simp [dictInsert, dictGet]
  | cons p rest ih =>
    by_cases hp : p.1 = k
    · simp [dictInsert, hp, dictGet]
    · simp [dictInsert, hp, dictGet, ih]

theorem dictGet_dictInsert_ne {α : Type} (m : List (String × α))
    (k k' : String) (v : α) (h : k' ≠ k) :
    dictGet (dictInsert m k v) k' = dictGet m k' := by
  have hk : ¬ k = k' := fun hh => h hh.symm
  induction m with
  | nil => simp [dictInsert, dictGet, hk]
  | cons p rest ih =>
    by_cases hp : p.1 = k
    · simp [dictInsert, hp, dictGet, hk]
    · simp [dictInsert, hp, dictGet, ih]

theorem mem_dictInsert {α : Type} (m : List (String × α)) (k : String) (v : α)
    (p : String × α) (hp : p ∈ dictInsert m k v) : p ∈ m ∨ p.1 = k := by
  induction m with
  | nil => simp [dictInsert] at hp; simp [hp]
  | cons q rest ih =>
    by_cases hq : q.1 = k
    · simp only [dictInsert, if_pos hq, List.mem_cons] at hp
      rcases hp with rfl | hp
      · right; rfl
      · left; exact List.mem_cons_of_mem _ hp
    · simp only [dictInsert, if_neg hq, List.mem_cons] at hp
      rcases hp with rfl | hp
      · left; exact List.mem_cons_self _ _
      · rcases ih hp with h | h
        · left; exact List.mem_cons_of_mem _ h
        · right; exact h

theorem dictHasKey_of_mem {α : Type} (m : List (String × α)) (p : String × α)
    (hp : p ∈ m) : dictHasKey m p.1 = true := by
  unfold dictHasKey
  simp only [List.any_eq_true, decide_eq_true_eq]
  exact ⟨p, hp, rfl⟩

theorem dictHasKey_false_iff {α : Type} (m : List (String × α)) (k : String) :
    dictHasKey m k = false ↔ ∀ p ∈ m, p.1 ≠ k := by
  unfold dictHasKey
  simp [List.any_eq_true]

theorem dictGet_applyTemplateFields_notin (m : CompletionMap)
    (qs : List (String × Nat)) (k : String) (h : dictHasKey qs k = false) :
    dictGet (applyTemplateFields m qs) k = dictGet m k := by
  induction qs generalizing m with
  | nil => rfl
  | cons q rest ih =>
    rw [dictHasKey_false_iff] at h
    have hq : q.1 ≠ k := h q (List.mem_cons_self _ _)
    have hrest : dictHasKey rest k = false := by
      rw [dictHasKey_false_iff]
      exact fun p hp => h p (List.mem_cons_of_mem _ hp)
    show dictGet (applyTemplateFields (dictInsert m q.1 ⟨false, q.2⟩) rest) k
        = dictGet m k
    rw [ih _ hrest, dictGet_dictInsert_ne _ _ _ _ (Ne.symm hq)]

theorem mem_applyTemplateFields (m : CompletionMap) (qs : List (String × Nat))
    (p : String × CompletionEntry) (hp : p ∈ applyTemplateFields m qs) :
    p ∈ m ∨ dictHasKey qs p.1 = true := by
  induction qs generalizing m with
  | nil => exact Or.inl hp
  | cons q rest ih =>
    have hp' : p ∈ applyTemplateFields (dictInsert m q.1 ⟨false, q.2⟩) rest :=
      hp
    rcases ih _ hp' with h | h
    · rcases mem_dictInsert _ _ _ _ h with h2 | h2
      · exact Or.inl h2
      · right
        unfold dictHasKey
        simp [h2]
    · right
      unfold dictHasKey at h ⊢
      simp only [List.any_cons]
      simp [h]

theorem dictGet_applyTemplateFields_mem (m : CompletionMap)
    (qs : List (String × Nat)) (hnd : (qs.map Prod.fst).Nodup) :
    ∀ q ∈ qs,
      dictGet (applyTemplateFields m qs) q.1 = some ⟨false, q.2⟩ := by
  induction qs generalizing m with
  | nil => intro q hq; cases hq
  | cons q0 rest ih =>
    intro q hq
    simp only [List.map_cons, List.nodup_cons] at hnd
    rcases List.mem_cons.mp hq with rfl | hq
    · have hrest : dictHasKey rest q.1 = false := by
        rw [dictHasKey_false_iff]
        intro p hp hcontra
        exact hnd.1 (hcontra ▸ List.mem_map_of_mem Prod.fst hp)
      show dictGet (applyTemplateFields (dictInsert m q.1 ⟨false, q.2⟩) rest)
          q.1 = some ⟨false, q.2⟩
      rw [dictGet_applyTemplateFields_notin _ _ _ hrest,
        dictGet_dictInsert_self]
    · exact ih _ hnd.2 q hq

theorem dictHasKey_prompt_infos_cases (c : String)
    (h : dictHasKey prompt_infos c = true) :
    c = "spend" ∨ c = "leave" ∨ c = "save" ∨ c = "donate" ∨
      c = "default" := by
  unfold dictHasKey prompt_infos at h
  simp only [List.any_cons, List.any_nil, Bool.or_eq_true,
    decide_eq_true_eq, Bool.or_false] at h
  tauto

theorem templateQuestions_keys_nodup (c : String)
    (h : dictHasKey prompt_infos c = true) :
    ((templateQuestions c).map Prod.fst).Nodup := by
  rcases dictHasKey_prompt_infos_cases c h with rfl | rfl | rfl | rfl | rfl <;>
    decide

/-- C2 counterexample: selecting the "spend" template on the initial
shadow profile does NOT drop the previously tracked fields — `"age"`
(not a "spend" field) is still tracked with its old entry afterwards, so
the tracked field set is not replaced exactly by the template's fields. -/
theorem switch_template_keeps_old_field :
    (call_matcher "spend" [("goal", "retire early and travel")]
        initial_shadow_profile).1 = "spend" ∧
    dictGet (call_matcher "spend" [("goal", "retire early and travel")]
        initial_shadow_profile).2 "age" = some ⟨false, 2⟩ ∧
    dictHasKey (templateQuestions "spend") "age" = false := by
  refine ⟨?_, ?_, ?_⟩ <;> decide

/-- C2 amended: selecting a template always resolves to a registered
category and MERGES its fields into the tracked map: every template
field is (re)initialized to `collected = false` with the template's
importance, every tracked field afterwards is either a template field or
was already tracked, and previously tracked fields outside the template
are kept unchanged (still tracked, still evaluated for readiness) rather
than dropped. -/
theorem switch_template_merges (shadow : CompletionMap)
    (real_profile : ProfileValues) (resp category : String)
    (result : CompletionMap)
    (hcat : (call_matcher resp real_profile shadow).1 = category)
    (hres : (call_matcher resp real_profile shadow).2 = result) :
    dictHasKey prompt_infos category = true ∧
    (∀ q ∈ templateQuestions category,
      dictGet result q.1 = some ⟨false, q.2⟩) ∧
    (∀ p ∈ result,
      dictHasKey shadow p.1 = true ∨
        dictHasKey (templateQuestions category) p.1 = true) ∧
    (∀ k, dictHasKey (templateQuestions category) k = false →
      dictGet result k = dictGet shadow k) := by
  have hkey : dictHasKey prompt_infos category = true := by
    subst hcat
    unfold call_matcher
    simp only
    split
    · assumption
    · decide
  have hresult :
      result = applyTemplateFields shadow (templateQuestions category) := by
    subst hcat; subst hres; rfl
  subst hresult
  refine ⟨hkey, ?_, ?_, ?_⟩
  · exact dictGet_applyTemplateFields_mem shadow _
      (templateQuestions_keys_nodup _ hkey)
  · intro p hp
    exact (mem_applyTemplateFields shadow _ p hp).imp
      (dictHasKey_of_mem shadow p) id
  · intro k hk
    exact dictGet_applyTemplateFields_notin shadow _ k hk

/-- Witness for C2's amended theorem at the concrete "spend" switch. -/
theorem switch_template_merges_witness :
    dictGet (call_matcher "spend" [("goal", "retire early and travel")]
        initial_shadow_profile).2 "retirement_age" = some ⟨false, 5⟩ ∧
    dictGet (call_matcher "spend" [("goal", "retire early and travel")]
        initial_shadow_profile).2 "age" =
      dictGet initial_shadow_profile "age" := by
  have h := switch_template_merges initial_shadow_profile
    [("goal", "retire early and travel")] "spend" "spend"
    (call_matcher "spend" [("goal", "retire early and travel")]
        initial_shadow_profile).2 (by decide) rfl
  exact ⟨h.2.1 ("retirement_age", 5) (by decide), h.2.2.2 "age" (by decide)⟩

/-- C3 counterexample: with an extractor reply that `json.loads` cannot
parse, the extraction step is NOT recovered as "no new information" —
the `JSONDecodeError` propagates out of `run_extractor` and the turn
fails. -/
theorem unparseable_extraction_fails_turn :
    run_extractor { baseOracle with extractorCall := .ok none }
        initial_master_state = .error TurnError.jsonDecodeError := rfl

/-- C3 amended: an unparseable extractor reply leaves the CompletionMap
and ProfileValues unchanged, but the condition is fatal: `json.loads`
is not wrapped in any handler, so the decode error is raised and
propagated to the caller instead of being absorbed as an empty
update. -/
theorem unparseable_extraction_raises (o : Oracles) (messages : List Msg)
    (shadow_profile : CompletionMap) (real_profile : ProfileValues)
    (h : o.extractorCall = .ok none) :
    call_extractor o messages shadow_profile real_profile =
      ⟨some .jsonDecodeError, shadow_profile, real_profile, none, none,
        none⟩ := by
  unfold call_extractor
  rw [h]

/-- Witness for C3's amended theorem at a concrete call. -/
theorem unparseable_extraction_raises_witness :
    call_extractor { baseOracle with extractorCall := .ok none }
        [⟨.human, "hello"⟩] initial_shadow_profile [] =
      ⟨some .jsonDecodeError, initial_shadow_profile, [], none, none,
        none⟩ :=
  unparseable_extraction_raises _ _ _ _ rfl

/-- C7 counterexample: a later extractor reply that again contains a
`"goal"` key regenerates the conversation title even though the stored
title is non-empty and not "None" — the claimed guard does not exist. -/
theorem title_regenerated_cex :
    titledState.extractor.conversation_title = "Early Retirement Planning" ∧
    titledState.extractor.conversation_title ≠ "None" ∧
    (run_extractor
        { baseOracle with
          extractorCall := .ok (some [("goal", "travel the world")]),
          titleCall := .ok "World Travel Retirement" }
        titledState).map (fun m => m.conversation_title) =
      .ok "World Travel Retirement" := by
  refine ⟨rfl, by decide, rfl⟩

/-- C7 amended: the conversation title is (re)generated on EVERY turn
whose extractor reply contains a `"goal"` key; no guard consults the
previously stored title, so a later goal extraction overwrites it. -/
theorem title_regenerated (o : Oracles) (master : MasterState)
    (d : List (String × String)) (t : String)
    (h1 : o.extractorCall = .ok (some d))
    (h2 : dictHasKey d "goal" = true)
    (h4 : o.titleCall = .ok t) :
    (run_extractor o master).map (fun m => m.conversation_title) =
      .ok (pyStrip t) := by
  have hne : d.isEmpty = false := by
    cases d
    · simp [dictHasKey] at h2
    · rfl
  unfold run_extractor call_extractor
  rw [h1]
  simp only [hne, Bool.false_eq_true, if_false, h2, if_true, h4]
  rfl

/-- Witness for C7's amended theorem at a concrete second goal turn. -/
theorem title_regenerated_witness :
    (run_extractor
        { baseOracle with
          extractorCall := .ok (some [("goal", "travel the world")]),
          titleCall := .ok " World Travel Retirement " }
        titledState).map (fun m => m.conversation_title) =
      .ok (pyStrip " World Travel Retirement ") :=
  title_regenerated _ _ [("goal", "travel the world")] _ rfl (by decide) rfl

/-- C10: whenever the extractor reply contains a `"goal"` key, the value
stored under `"goal"` in the profile is the verbatim content of the last
message handed to the extractor (the user's most recent message), and
that same text is embedded in the title-generation request and is what
the goal classifier subsequently reads. -/
theorem goal_stores_verbatim_last_message (o : Oracles)
    (master : MasterState) (d : List (String × String)) (t : String)
    (hm : Msg)
    (h1 : o.extractorCall = .ok (some d))
    (h2 : dictHasKey d "goal" = true)
    (h3 : lastHumanMessage master.messages = some hm)
    (h4 : o.titleCall = .ok t) :
    (run_extractor o master).map
        (fun m => dictGet m.real_profile "goal") =
      .ok (some hm.content) ∧
    (run_extractor o master).map
        (fun m => matcher_user_goal m.real_profile) = .ok hm.content ∧
    (call_extractor o (extractor_input_messages master)
        master.shadow_profile master.extractor.real_profile).titlePrompt =
      some (title_prompt_content hm.content) := by
  have hne : d.isEmpty = false := by
    cases d
    · simp [dictHasKey] at h2
    · rfl
  have hlast :
      pyLast (system_prompt_extract ::
        Msg.mk .system (shadow_system_prompt master.shadow_profile) ::
        extractor_input_messages master) = some hm := by
    unfold extractor_input_messages
    rw [h3]
    rfl
  have hr : call_extractor o (extractor_input_messages master)
      master.shadow_profile master.extractor.real_profile =
    ⟨none,
      master.shadow_profile.map (fun p =>
        if dictHasKey d p.1 then (p.1, ⟨true, p.2.importance⟩) else p),
      dictInsert (dictUpdate master.extractor.real_profile d) "goal"
        hm.content,
      some ((master.shadow_profile.map (fun p =>
        if dictHasKey d p.1 then (p.1, ⟨true, p.2.importance⟩)
        else p)).all (fun p => p.2.collected)),
      some (pyStrip t), some (title_prompt_content hm.content)⟩ := by
    unfold call_extractor
    rw [h1]
    simp only [hne, Bool.false_eq_true, if_false, h2, if_true, h4, hlast]
    rfl
  refine ⟨?_, ?_, ?_⟩
  · simp only [run_extractor, hr, Except.map]
    rw [dictGet_dictInsert_self]
  · simp only [run_extractor, hr, Except.map]
    unfold matcher_user_goal
    rw [dictGet_dictInsert_self]
    rfl
  · rw [hr]

/-- Witness for C10 at a concrete goal-bearing turn. -/
theorem goal_stores_verbatim_last_message_witness :
    ((run_extractor
        { baseOracle with
          extractorCall := .ok (some [("goal", "early retirement")]),
          titleCall := .ok "Early Retirement" }
        { initial_master_state with
          messages := [⟨.human, "I want to retire early and travel"⟩] }).map
        (fun m => dictGet m.real_profile "goal") =
      .ok (some "I want to retire early and travel") ∧
    (run_extractor
        { baseOracle with
          extractorCall := .ok (some [("goal", "early retirement")]),
          titleCall := .ok "Early Retirement" }
        { initial_master_state with
          messages := [⟨.human, "I want to retire early and travel"⟩] }).map
        (fun m => matcher_user_goal m.real_profile) =
      .ok "I want to retire early and travel" ∧
    (call_extractor
        { baseOracle with
          extractorCall := .ok (some [("goal", "early retirement")]),
          titleCall := .ok "Early Retirement" }
        (extractor_input_messages
          { initial_master_state with
            messages := [⟨.human, "I want to retire early and travel"⟩] })
        ({ initial_master_state with
            messages := [⟨.human, "I want to retire early and travel"⟩] }
          : MasterState).shadow_profile
        ({ initial_master_state with
            messages := [⟨.human, "I want to retire early and travel"⟩] }
          : MasterState).extractor.real_profile).titlePrompt =
      some (title_prompt_content "I want to retire early and travel")) :=
  goal_stores_verbatim_last_message _ _ [("goal", "early retirement")] _
    ⟨.human, "I want to retire early and travel"⟩ rfl (by decide) rfl rfl

/-- C4 counterexample: a turn that fails at its first model call (the
extractor model raising) does NOT leave the session state as it was
before the turn began — the user message was appended to the
process-global state before `graph.invoke` ran, and the append stays
committed after the failure. -/
theorem failed_turn_commits_partial_state :
    (chat_step { baseOracle with extractorCall := .error () } "Hi"
        "session-1" initial_master_state none).err =
      some TurnError.modelError ∧
    (chat_step { baseOracle with extractorCall := .error () } "Hi"
        "session-1" initial_master_state none).state.messages =
      [⟨.human, "Hi"⟩] ∧
    initial_master_state.messages = [] :=
  ⟨rfl, rfl, rfl⟩

/-- C4 amended: when the turn's first model call (the extractor model)
fails, the error propagates with the profile maps, sub-agent histories
and title unchanged — but the user message appended to the master
conversation before the graph ran stays committed, so the pre-turn state
is NOT fully restored.  (Failures later in the turn additionally leave
the in-place profile mutations performed before the raise; the modelled
failure point precedes them.) -/
theorem failed_turn_commits_message (o : Oracles) (um sid : String)
    (g : MasterState) (prev : Option Msg)
    (h : o.extractorCall = .error ()) :
    chat_step o um sid g prev =
      { err := some .modelError,
        state := { g with messages := g.messages ++ [⟨.human, um⟩] },
        prev_assistant_message := prev, response := none,
        real_profile := none, conversation_title := none } := by
  unfold chat_step graph_invoke run_extractor call_extractor
  rw [h]
  rfl

/-- Witness for C4's amended theorem at a concrete failing turn. -/
theorem failed_turn_commits_message_witness :
    chat_step { baseOracle with extractorCall := .error () } "Hi" "s1"
        initial_master_state none =
      { err := some .modelError,
        state := { initial_master_state with
          messages := initial_master_state.messages ++ [⟨.human, "Hi"⟩] },
        prev_assistant_message := none, response := none,
        real_profile := none, conversation_title := none } :=
  failed_turn_commits_message _ _ _ _ _ rfl

/-- C5: the planner is NOT given the session's ProfileValues.  The
query-phase prompt embeds the module-global `real_profile`, which stays
empty for the process lifetime; the synthesis-phase prompt embeds the
planner sub-state's `real_profile` key, which the planner sub-graph
itself preserves and no caller ever writes; hence for the session
`collectedState`, whose extraction phase collected a non-empty profile,
both prompts embed the empty profile. -/
theorem planner_prompts_empty_profile :
    module_real_profile = [] ∧
    rag_query_text =
      "You are a Retrieval Assistant. User Profile: " ++
        renderProfile [] ∧
    (∀ (o : Oracles) (ps : PlannerSub),
      (planner_subgraph_invoke o ps).map (fun r => r.real_profile) =
        (planner_subgraph_invoke o ps).map (fun _ => ps.real_profile)) ∧
    collectedState.real_profile =
      [("goal", "retire early and travel"), ("age", "45")] ∧
    run_planner_synthesis_profile collectedState = [] := by
  refine ⟨rfl, rfl, ?_, rfl, rfl⟩
  intro o ps
  unfold planner_subgraph_invoke
  cases o.plannerQueryCall with
  | error e => rfl
  | ok qc =>
    obtain ⟨content, queries⟩ := qc
    simp only
    by_cases hq : queries.isEmpty
    · simp only [hq, if_true]
      rfl
    · simp only [hq, Bool.false_eq_true, if_false]
      cases o.plannerSynthCall <;> rfl

/-- C6: sessions are NOT independent — the source keeps one
process-global MasterState.  `start_session` installs a fresh initial
state regardless of the session id, discarding the accumulated state of
the session that held the global before (its profile and title are
gone), and `chat_step` ignores its session-id argument entirely: on the
same global state, different session ids produce identical results. -/
theorem sessions_share_one_global :
    (start_session "session-B" (some titledState)).2 =
      initial_master_state ∧
    titledState.real_profile = [("goal", "I want to retire early")] ∧
    initial_master_state.real_profile = [] ∧
    titledState.conversation_title = "Early Retirement Planning" ∧
    initial_master_state.conversation_title = "initial" ∧
    (∀ (o : Oracles) (um : String) (g : MasterState) (prev : Option Msg)
        (sid1 sid2 : String),
      chat_step o um sid1 g prev = chat_step o um sid2 g prev) := by
  refine ⟨rfl, rfl, rfl, rfl, rfl, fun o um g prev sid1 sid2 => rfl⟩

theorem isWalk_length_le {ν : Type} [DecidableEq ν]
    (edges : List (ν × ν)) (rank : ν → Nat)
    (hdec : ∀ e ∈ edges, rank e.2 < rank e.1) :
    ∀ p : List ν, isWalk edges p = true →
      p.length ≤ ((p.head?.map rank).getD 0) + 1 := by
  intro p
  induction p with
  | nil => intro _; simp
  | cons a rest ih =>
    cases rest with
    | nil => intro _; simp
    | cons b rest2 =>
      intro hw
      simp only [isWalk, Bool.and_eq_true, decide_eq_true_eq] at hw
      have h1 : rank b < rank a := hdec (a, b) hw.1
      have h2 := ih hw.2
      simp only [List.head?_cons, List.length_cons] at h2 ⊢
      simp only [Option.map_some', Option.getD_some] at h2 ⊢
      omega

theorem isWalk_chain {ν : Type} [DecidableEq ν]
    (edges : List (ν × ν)) (rank : ν → Nat)
    (hdec : ∀ e ∈ edges, rank e.2 < rank e.1) :
    ∀ p : List ν, isWalk edges p = true →
      List.Chain' (fun a b => rank b < rank a) p := by
  intro p
  induction p with
  | nil => intro _; exact List.chain'_nil
  | cons a rest ih =>
    cases rest with
    | nil => intro _; simp
    | cons b rest2 =>
      intro hw
      simp only [isWalk, Bool.and_eq_true, decide_eq_true_eq] at hw
      exact List.chain'_cons.mpr ⟨hdec (a, b) hw.1, ih hw.2⟩

theorem isWalk_nodup {ν : Type} [DecidableEq ν]
    (edges : List (ν × ν)) (rank : ν → Nat)
    (hdec : ∀ e ∈ edges, rank e.2 < rank e.1)
    (p : List ν) (hw : isWalk edges p = true) : p.Nodup := by
  have hc := isWalk_chain edges rank hdec p hw
  haveI : IsTrans ν (fun a b => rank b < rank a) :=
    ⟨fun _ _ _ h1 h2 => Nat.lt_trans h2 h1⟩
  have hp := List.chain'_iff_pairwise.mp hc
  have himp : ∀ {a b : ν}, rank b < rank a → a ≠ b := by
    intro a b h heq
    subst heq
    exact Nat.lt_irrefl _ h
  exact hp.imp himp

/-- C9: every master-workflow edge strictly decreases a rank, so any
walk through the master graph is bounded in length and repeats no node
(there is no cycle): a turn performs at most extract, optionally match,
interview or plan, and optionally summarize.  The planner sub-graph
likewise only admits walks of length at most 4 in which the retrieval
`tools` node occurs at most once: a single query-then-retrieve round,
with no transition back from synthesis to querying. -/
theorem master_graph_bounded :
    (∀ e ∈ masterEdges, mRank e.2 < mRank e.1) ∧
    (∀ p : List MNode, isWalk masterEdges p = true → p.length ≤ 6) ∧
    (∀ p : List MNode, isWalk masterEdges p = true → p.Nodup) ∧
    (∀ e ∈ plannerEdges, pRank e.2 < pRank e.1) ∧
    (∀ p : List PNode, isWalk plannerEdges p = true → p.length ≤ 4) ∧
    (∀ p : List PNode, isWalk plannerEdges p = true →
      p.count PNode.tools ≤ 1) := by
  have hm : ∀ e ∈ masterEdges, mRank e.2 < mRank e.1 := by decide
  have hpl : ∀ e ∈ plannerEdges, pRank e.2 < pRank e.1 := by decide
  refine ⟨hm, ?_, ?_, hpl, ?_, ?_⟩
  · intro p hw
    have hlen := isWalk_length_le masterEdges mRank hm p hw
    have hr : ((p.head?.map mRank).getD 0) ≤ 5 := by
      cases p with
      | nil => simp
      | cons a rest =>
        show mRank a ≤ 5
        cases a <;> decide
    omega
  · intro p hw
    exact isWalk_nodup masterEdges mRank hm p hw
  · intro p hw
    have hlen := isWalk_length_le plannerEdges pRank hpl p hw
    have hr : ((p.head?.map pRank).getD 0) ≤ 3 := by
      cases p with
      | nil => simp
      | cons a rest =>
        show pRank a ≤ 3
        cases a <;> decide
    omega
  · intro p hw
    have hn := isWalk_nodup plannerEdges pRank hpl p hw
    exact List.nodup_iff_count_le_one.mp hn PNode.tools

/-- Witness for C9 at the longest concrete master walk and the full
planner walk. -/
theorem master_graph_bounded_witness :
    ([MNode.START, MNode.extractor, MNode.matcher, MNode.chatbot,
        MNode.summarizer].length ≤ 6) ∧
    ([MNode.START, MNode.extractor, MNode.matcher, MNode.chatbot,
        MNode.summarizer].Nodup) ∧
    ([PNode.query_or_respond, PNode.tools, PNode.call_planner,
        PNode.END].length ≤ 4) ∧
    ([PNode.query_or_respond, PNode.tools, PNode.call_planner,
        PNode.END].count PNode.tools ≤ 1) :=
  ⟨master_graph_bounded.2.1 _ (by decide),
   master_graph_bounded.2.2.1 _ (by decide),
   master_graph_bounded.2.2.2.2.1 _ (by decide),
   master_graph_bounded.2.2.2.2.2 _ (by decide)⟩

end NestWise
